import Mathlib

/-!
Verification of the RDP (RFC 908) implementation: packet codec
(`rdp_protocol.py`) and connection state machine (`rdp_connection.py`).

Shallow embedding conventions:
- Python byte strings are `List Nat` with every element `< 256`.
- Python non-negative ints are `Nat`; Python's `x >> 16` is `x / 65536`,
  `x & 0xffff` is `x % 65536`, and `~x & 0xffff` on a non-negative `x` is
  `65535 - x % 65536` (two's-complement bitwise-not followed by masking).
- `struct.pack` range errors are handled by stating theorems under the
  validity hypotheses that make the `%`-truncations in the byte writers
  no-ops (`struct` raises on out-of-range values rather than truncating).
- Python exceptions are modelled with `Except PyError`.
-/

namespace RDP

/-- Python exceptions that the repository can raise on the modelled paths:
`struct.error` from `struct.unpack` on a short buffer, and `TypeError` from
calling the static method `RDPPacket.decode` on an instance with no
argument. -/
inductive PyError where
  | structError
  | typeError
deriving DecidableEq

instance {ε α : Type} [DecidableEq ε] [DecidableEq α] : DecidableEq (Except ε α) :=
  fun x y =>
    match x, y with
    | .ok a, .ok b =>
      if h : a = b then .isTrue (by rw [h]) else .isFalse (by simp [h])
    | .error e, .error f =>
      if h : e = f then .isTrue (by rw [h]) else .isFalse (by simp [h])
    | .ok _, .error _ => .isFalse (by simp)
    | .error _, .ok _ => .isFalse (by simp)

/-- Big-endian 2-byte encoding, as produced by `struct.pack("!H", n)`
(for `n < 65536`, which `struct` enforces by raising; theorems that depend
on the value carry that bound as a hypothesis). -/
def be16 (n : Nat) : List Nat :=
  [n / 256 % 256, n % 256]

/-- Big-endian 4-byte encoding, as produced by `struct.pack("!I", n)`
(for `n < 2^32`). -/
def be32 (n : Nat) : List Nat :=
  [n / 16777216 % 256, n / 65536 % 256, n / 256 % 256, n % 256]

/-- Big-endian 16-bit read at offset `i`, as done by `struct.unpack("!H", ...)`.
Callers establish that the offsets are in bounds, matching `struct.unpack`'s
length check modelled in `RDPPacket.decode`. -/
def read16 (b : List Nat) (i : Nat) : Nat :=
  b.getD i 0 * 256 + b.getD (i + 1) 0

/-- Big-endian 32-bit read at offset `i`, as done by `struct.unpack("!I", ...)`. -/
def read32 (b : List Nat) (i : Nat) : Nat :=
  b.getD i 0 * 16777216 + b.getD (i + 1) 0 * 65536 + b.getD (i + 2) 0 * 256 + b.getD (i + 3) 0

/-- The logical RDP packet of `rdp_protocol.py` (`RDPPacket.__init__`).
The five control flags are `Bool`; the Python decoder stores the ints `0`/`1`
instead, which are `==`-equal to the corresponding booleans in Python, so the
`Bool` model is observationally faithful. -/
structure RDPPacket where
  source_port : Nat
  dest_port : Nat
  seq_num : Nat
  ack_num : Nat
  data : List Nat
  syn : Bool
  ack : Bool
  eack : Bool
  rst : Bool
  nul : Bool
deriving DecidableEq

/-- A packet whose fields are in the ranges the wire format (and `struct.pack`
in `encode`/`compute_checksum`) can carry: 16-bit ports, 32-bit sequence and
acknowledgement numbers, a payload of bytes whose length fits the 16-bit
length word that `compute_checksum` packs with format `"H"`. -/
def ValidPacket (p : RDPPacket) : Prop :=
  p.source_port < 65536 ∧ p.dest_port < 65536 ∧
  p.seq_num < 4294967296 ∧ p.ack_num < 4294967296 ∧
  p.data.length < 65536 ∧ ∀ b ∈ p.data, b < 256

instance (p : RDPPacket) : Decidable (ValidPacket p) := by
  unfold ValidPacket; infer_instance

/-- Sum of big-endian 16-bit words of a byte list, a trailing odd byte taken
at its own value: this is `int.from_bytes(data[i:i+2], "big")` summed over
`range(0, len(data), 2)`, where the final one-byte slice yields just the
byte (as in `RDPPacket.compute_checksum`). -/
def sumWords : List Nat → Nat
  | [] => 0
  | [b] => b
  | b1 :: b2 :: rest => (b1 * 256 + b2) + sumWords rest

/-- The 14-byte `header_data = struct.pack("!HHHII", source_port, dest_port,
len(data), seq_num, ack_num)` used by `compute_checksum`. Note the length is
packed as a 16-bit `"H"` here, unlike the 32-bit `"I"` used in `encode`. -/
def header_data (p : RDPPacket) : List Nat :=
  be16 p.source_port ++ be16 p.dest_port ++ be16 p.data.length ++
    be32 p.seq_num ++ be32 p.ack_num

/-- `RDPPacket.compute_checksum`: sum of the header words and payload words,
then the two carry-fold lines
`checksum = (checksum >> 16) + (checksum & 0xffff)` and
`checksum = (checksum >> 16) + checksum` (the second adds the carry to the
unmasked value), and finally `~checksum & 0xffff`. -/
def RDPPacket.compute_checksum (p : RDPPacket) : Nat :=
  let s := sumWords (header_data p) + sumWords p.data
  let c1 := s / 65536 + s % 65536
  let c2 := c1 / 65536 + c1
  65535 - c2 % 65536

/-- The flags value built by `RDPPacket.encode`:
`(syn << 3) | (ack << 2) | (eack << 1) | rst | (nul << 4)`. -/
def RDPPacket.flagsValue (p : RDPPacket) : Nat :=
  (p.syn.toNat <<< 3) ||| (p.ack.toNat <<< 2) ||| (p.eack.toNat <<< 1) |||
    p.rst.toNat ||| (p.nul.toNat <<< 4)

/-- `RDPPacket.encode`: the 22-byte header
`struct.pack("!HHHIIII", control_and_version, source_port, dest_port,
len(data), seq_num, ack_num, checksum)` followed by the payload, where
`control_and_version = (1 << 12) | (flags << 8) | 9`. -/
def RDPPacket.encode (p : RDPPacket) : List Nat :=
  let control_and_version := (1 <<< 12) ||| (p.flagsValue <<< 8) ||| 9
  be16 control_and_version ++ be16 p.source_port ++ be16 p.dest_port ++
    be32 p.data.length ++ be32 p.seq_num ++ be32 p.ack_num ++
    be32 p.compute_checksum ++ p.data

/-- `RDPPacket.decode`: `struct.unpack("!HHHIIII", packet_bytes[:22])` raises
`struct.error` when fewer than 22 bytes are present; otherwise the flags are
taken from `control_and_version & 0xFF` (the low byte), the data is
`packet_bytes[22:]`, and the unpacked `data_length` and `checksum` are never
consulted. -/
def RDPPacket.decode (packet_bytes : List Nat) : Except PyError RDPPacket :=
  if packet_bytes.length < 22 then
    .error .structError
  else
    let control_and_version := read16 packet_bytes 0
    let source_port := read16 packet_bytes 2
    let dest_port := read16 packet_bytes 4
    let seq_num := read32 packet_bytes 10
    let ack_num := read32 packet_bytes 14
    let flags := control_and_version % 256
    let syn := flags / 8 % 2 == 1
    let ack := flags / 4 % 2 == 1
    let eack := flags / 2 % 2 == 1
    let rst := flags % 2 == 1
    let nul := flags / 16 % 2 == 1
    let data := packet_bytes.drop 22
    .ok ⟨source_port, dest_port, seq_num, ack_num, data, syn, ack, eack, rst, nul⟩

/-- The declared `data_length` field of an encoded packet, the 32-bit word at
offset 6, as unpacked (and then ignored) by `RDPPacket.decode`. -/
def declaredDataLength (packet_bytes : List Nat) : Nat :=
  read32 packet_bytes 6

/-- The six connection states of `rdp_connection.py` (string literals in the
source). -/
inductive ConnState where
  | CLOSED
  | LISTEN
  | SYN_SENT
  | SYN_RCVD
  | OPEN
  | CLOSE_WAIT
deriving DecidableEq

/-- The mutable state of `RDPConnection`. `remote_address` abstracts the
socket peer address as a `Nat` identifier; the socket itself is external.
`SND_MAX` and `RMAX_BUF` are only assigned by `open` in the source; they are
ordinary fields here, which is indistinguishable on every modelled path
(every read of them is guarded by a states reachable only through `open`). -/
structure Conn where
  state : ConnState
  SND_ISS : Nat
  SND_NXT : Nat
  SND_UNA : Nat
  RCV_CUR : Nat
  RCV_MAX : Nat
  SND_MAX : Nat
  RMAX_BUF : Nat
  data_buffer : List Nat
  source_port : Nat
  dest_port : Nat
  remote_address : Nat
deriving DecidableEq

/-- `RDPConnection.__init__`: state CLOSED, all counters zero, empty buffer. -/
def Conn.init (source_port dest_port remote_address : Nat) : Conn :=
  { state := .CLOSED, SND_ISS := 0, SND_NXT := 0, SND_UNA := 0,
    RCV_CUR := 0, RCV_MAX := 0, SND_MAX := 0, RMAX_BUF := 0,
    data_buffer := [], source_port, dest_port, remote_address }

/-- Outcomes of `RDPConnection.open` (the source returns status strings). -/
inductive OpenResult where
  | alreadyOpen
  | missingLocalPort
  | missingRemotePort
  | opened
deriving DecidableEq

/-- `RDPConnection.open`. The fresh initial sequence number drawn from
`generate_initial_sequence_number()` is passed in as `iss` (the source draws
it from `random.randint`). Returns the updated connection, the packets
transmitted via `send_packet`, and the outcome. Mutation order follows the
source: the sequence counters and `SND_MAX`/`RMAX_BUF` are assigned before
the port checks, so a failed open still updates them. In the active branch a
missing `local_port` triggers `allocate_local_port`, which sets
`source_port` to 10000; a supplied `local_port` is never copied into
`source_port`. -/
def open_connection (c : Conn) (passive : Bool)
    (local_port remote_port snd_max rmax_buf : Option Nat) (iss : Nat) :
    Conn × List RDPPacket × OpenResult :=
  if c.state ≠ .CLOSED then
    (c, [], .alreadyOpen)
  else
    let c1 := { c with SND_ISS := iss, SND_NXT := iss + 1, SND_UNA := iss,
                       SND_MAX := snd_max.getD 10, RMAX_BUF := rmax_buf.getD 1024 }
    if passive then
      match local_port with
      | none => (c1, [], .missingLocalPort)
      | some _ => ({ c1 with state := .LISTEN }, [], .opened)
    else
      match remote_port with
      | none => (c1, [], .missingRemotePort)
      | some rp =>
        let c2 := if local_port.isNone then { c1 with source_port := 10000 } else c1
        ({ c2 with state := .SYN_SENT },
         [⟨c2.source_port, rp, c2.SND_ISS, 0, [], true, false, false, false, false⟩],
         .opened)

/-- The RST packet built by `RDPConnection.send_rst`. -/
def rst_packet (c : Conn) : RDPPacket :=
  ⟨c.source_port, c.dest_port, c.SND_NXT, c.RCV_CUR, [], false, false, false, true, false⟩

/-- Outcomes of `RDPConnection.close` (the source returns status strings). -/
inductive CloseResult where
  | closedFromHandshake
  | closeWait
  | errNotOpenOrClosing
deriving DecidableEq

/-- `RDPConnection.close`: LISTEN/SYN-RCVD/SYN-SENT send an RST and go to
CLOSED; OPEN sends an RST and goes to CLOSE-WAIT; any other state returns the
"not open or already closing" error and changes nothing. -/
def close (c : Conn) : Conn × List RDPPacket × CloseResult :=
  match c.state with
  | .LISTEN | .SYN_RCVD | .SYN_SENT =>
    ({ c with state := .CLOSED }, [rst_packet c], .closedFromHandshake)
  | .OPEN =>
    ({ c with state := .CLOSE_WAIT }, [rst_packet c], .closeWait)
  | _ => (c, [], .errNotOpenOrClosing)

/-- Errors returned (as strings) by `RDPConnection.send`. -/
inductive SendError where
  | notOpen
  | segmentTooLarge
  | windowFull
deriving DecidableEq

/-- `RDPConnection.prepare_data_packet`: a packet with `seq = SND_NXT`,
`ack = RCV_CUR`, the connection's ports, the given payload, and no control
flags. -/
def prepare_data_packet (c : Conn) (data : List Nat) : RDPPacket :=
  ⟨c.source_port, c.dest_port, c.SND_NXT, c.RCV_CUR, data,
   false, false, false, false, false⟩

/-- `RDPConnection.send`: the three guards in source order (state, segment
size, window), then one `send_packet` of the prepared data packet and
`SND_NXT += len(data)`. -/
def send (c : Conn) (data : List Nat) : Except SendError (Conn × RDPPacket) :=
  if c.state ≠ .OPEN then
    .error .notOpen
  else if data.length > c.SND_MAX then
    .error .segmentTooLarge
  else if c.SND_NXT ≥ c.SND_UNA + c.SND_MAX then
    .error .windowFull
  else
    .ok ({ c with SND_NXT := c.SND_NXT + data.length }, prepare_data_packet c data)

/-- `RDPConnection.reset_connection`: state CLOSED, all five sequence
counters zeroed, buffer emptied (`SND_MAX`/`RMAX_BUF` are not touched). -/
def reset_connection (c : Conn) : Conn :=
  { c with state := .CLOSED, SND_ISS := 0, SND_NXT := 0, SND_UNA := 0,
           RCV_CUR := 0, RCV_MAX := 0, data_buffer := [] }

/-- `RDPConnection.handle_syn_packet`: in LISTEN on a SYN, set
`RCV_CUR = packet.seq_num`, emit the SYN-ACK built by `send_syn_ack`
(which reads the just-updated `RCV_CUR`), and move to SYN-RCVD. -/
def handle_syn_packet (c : Conn) (p : RDPPacket) : Conn × List RDPPacket :=
  if c.state = .LISTEN ∧ p.syn then
    ({ c with RCV_CUR := p.seq_num, state := .SYN_RCVD },
     [⟨c.source_port, p.source_port, c.SND_ISS, p.seq_num, [],
       true, true, false, false, false⟩])
  else (c, [])

/-- `RDPConnection.handle_syn_ack_packet`: in SYN-SENT on SYN+ACK, set
`RCV_CUR = packet.seq_num`, emit the ACK built by `send_ack`, move to OPEN. -/
def handle_syn_ack_packet (c : Conn) (p : RDPPacket) : Conn × List RDPPacket :=
  if c.state = .SYN_SENT ∧ p.syn ∧ p.ack then
    ({ c with RCV_CUR := p.seq_num, state := .OPEN },
     [⟨c.source_port, p.source_port, c.SND_NXT, p.seq_num, [],
       false, true, false, false, false⟩])
  else (c, [])

/-- `RDPConnection.handle_ack_packet`: in SYN-RCVD on ACK, move to OPEN. -/
def handle_ack_packet (c : Conn) (p : RDPPacket) : Conn × List RDPPacket :=
  if c.state = .SYN_RCVD ∧ p.ack then
    ({ c with state := .OPEN }, [])
  else (c, [])

/-- `RDPConnection.handle_data_packet`: in OPEN on non-empty data, append the
payload to `data_buffer` and emit the ACK built by `send_ack`. -/
def handle_data_packet (c : Conn) (p : RDPPacket) : Conn × List RDPPacket :=
  if c.state = .OPEN ∧ p.data ≠ [] then
    ({ c with data_buffer := c.data_buffer ++ p.data },
     [⟨c.source_port, p.source_port, c.SND_NXT, c.RCV_CUR, [],
       false, true, false, false, false⟩])
  else (c, [])

/-- `RDPConnection.handle_rst_packet`: in OPEN on RST, set state CLOSED and
call `reset_connection`. -/
def handle_rst_packet (c : Conn) (p : RDPPacket) : Conn :=
  if c.state = .OPEN ∧ p.rst then reset_connection c else c

/-- The per-state dispatch in the body of `RDPConnection.process_packet`
(lines after the `decoded_packet = packet.decode()` call): LISTEN handles
SYN-without-ACK, SYN-SENT handles SYN+ACK, SYN-RCVD handles ACK, OPEN handles
non-empty data first and otherwise RST; every other (state, packet)
combination falls through with no effect and no packet emitted. -/
def process_packet_dispatch (c : Conn) (p : RDPPacket) : Conn × List RDPPacket :=
  match c.state with
  | .LISTEN => if p.syn ∧ ¬p.ack then handle_syn_packet c p else (c, [])
  | .SYN_SENT => if p.syn ∧ p.ack then handle_syn_ack_packet c p else (c, [])
  | .SYN_RCVD => if p.ack then handle_ack_packet c p else (c, [])
  | .OPEN =>
    if p.data ≠ [] then handle_data_packet c p
    else if p.rst then (handle_rst_packet c p, [])
    else (c, [])
  | _ => (c, [])

/-- The bytes of the literal `b"Test response"` returned by
`process_packet`. -/
def testResponseBytes : List Nat :=
  [84, 101, 115, 116, 32, 114, 101, 115, 112, 111, 110, 115, 101]

/-- The first statement of `RDPConnection.process_packet` is
`decoded_packet = packet.decode()`: `RDPPacket.decode` is a static method
with one required parameter `packet_bytes`, so calling it on the packet
instance with no argument raises `TypeError` unconditionally. -/
def instance_decode_call (_p : RDPPacket) : Except PyError RDPPacket :=
  .error .typeError

/-- `RDPConnection.process_packet`: calls `packet.decode()` (which raises
`TypeError`, see `instance_decode_call`), then would dispatch on the current
state and finally return the debug packet
`RDPPacket(source_port, dest_port, SND_NXT, RCV_CUR, b"Test response")`. -/
def process_packet (c : Conn) (p : RDPPacket) :
    Except PyError (Conn × List RDPPacket × RDPPacket) :=
  match instance_decode_call p with
  | .error e => .error e
  | .ok decoded =>
    let r := process_packet_dispatch c decoded
    .ok (r.1, r.2,
      ⟨r.1.source_port, r.1.dest_port, r.1.SND_NXT, r.1.RCV_CUR,
       testResponseBytes, false, false, false, false, false⟩)

/-- `RDPConnection.receive_packet`, with the datagram delivered by
`socket.recvfrom` passed in as `(bytes, sender address)`: a datagram from an
address other than `remote_address` yields `None`; otherwise the bytes are
decoded, and a `struct.error` from `RDPPacket.decode` propagates (there is no
exception handler). -/
def receive_packet (c : Conn) (dgram : List Nat × Nat) :
    Except PyError (Option RDPPacket) :=
  if dgram.2 ≠ c.remote_address then
    .ok none
  else
    match RDPPacket.decode dgram.1 with
    | .error e => .error e
    | .ok p => .ok (some p)

/-- Results of `RDPConnection.receive` (the source returns strings for the
first three and the buffered bytes for the last). -/
inductive RecvResult where
  | errNotOpen
  | noData
  | noNewData
  | gotData (bs : List Nat)
deriving DecidableEq

/-- `RDPConnection.receive`: requires OPEN; reads one datagram through
`receive_packet` (`None` becomes "No data to receive"); a decoded packet is
passed to `process_packet`; afterwards a non-empty `data_buffer` is returned
and cleared. Exceptions from `receive_packet` (a `struct.error` on a
malformed datagram) and from `process_packet` (its unconditional `TypeError`)
propagate to the caller. -/
def receive (c : Conn) (dgram : List Nat × Nat) :
    Except PyError (Conn × RecvResult) :=
  if c.state ≠ .OPEN then
    .ok (c, .errNotOpen)
  else
    match receive_packet c dgram with
    | .error e => .error e
    | .ok none => .ok (c, .noData)
    | .ok (some p) =>
      match process_packet c p with
      | .error e => .error e
      | .ok (c1, _, _) =>
        if c1.data_buffer ≠ [] then
          .ok ({ c1 with data_buffer := [] }, .gotData c1.data_buffer)
        else
          .ok (c1, .noNewData)

/-! ### Spec-side checksum definitions

These follow the wording of the specification ("sum the header fields and
the payload as big-endian 16-bit words ..., fold any carry out of bit 16
back into the low 16 bits repeatedly until no carry remains, then take the
bitwise complement of the low 16 bits"), to be compared against
`RDPPacket.compute_checksum` above. -/

/-- Fold the carry out of bit 16 into the low 16 bits, repeatedly, until no
carry remains. The fuel argument equals the starting value, which always
suffices because each folding step strictly decreases a value that is at
least 65536. -/
def foldCarriesAux : Nat → Nat → Nat
  | 0, c => c
  | fuel + 1, c => if c < 65536 then c else foldCarriesAux fuel (c / 65536 + c % 65536)

/-- Repeated carry folding of a one's-complement accumulator. -/
def foldCarries (c : Nat) : Nat :=
  foldCarriesAux c c

/-- The header contribution described by the spec: `source_port`,
`dest_port` and `data_length` are single big-endian 16-bit words, and each of
`seq_num` and `ack_num` contributes its high and low 16-bit word. -/
def headerWordSum (p : RDPPacket) : Nat :=
  p.source_port + p.dest_port + p.data.length +
    (p.seq_num / 65536 + p.seq_num % 65536) +
    (p.ack_num / 65536 + p.ack_num % 65536)

/-- Payload words with the claimed padding: a payload of odd length is padded
with one trailing zero byte, so a final odd byte `b` contributes `b * 256`. -/
def sumWordsTrailingPad : List Nat → Nat
  | [] => 0
  | [b] => b * 256
  | b1 :: b2 :: rest => (b1 * 256 + b2) + sumWordsTrailingPad rest

/-- The checksum exactly as the claim words it: trailing-zero padding of an
odd payload, carry folding until none remains, complement of the low
16 bits. -/
def specChecksumTrailingPad (p : RDPPacket) : Nat :=
  65535 - foldCarries (headerWordSum p + sumWordsTrailingPad p.data)

/-- The checksum with the padding convention the code actually uses: a final
odd byte contributes its own value, i.e. the payload is padded with one
leading zero byte in its last 16-bit word. -/
def specChecksumLeadingPad (p : RDPPacket) : Nat :=
  65535 - foldCarries (headerWordSum p + sumWords p.data)

/-! ### Claim C1 -/

/-- A valid packet with all five control flags clear, used as the failing
input for claim C1. -/
def c1pkt : RDPPacket :=
  ⟨4660, 22136, 305419896, 2271560481, [222, 173, 190, 239],
   false, false, false, false, false⟩

/-- C1 (code bug): decoding the bytes produced by encoding does NOT recover
the control flags. `encode` stores the flags in the high byte of the control
word (the low byte is the constant header length 9), but `decode` extracts
the flags from the low byte, so every decoded packet has SYN and RST set
(the bits of 9) and ACK, EACK, NUL clear. On the concrete all-flags-clear
packet `c1pkt`, the round trip returns the packet with SYN and RST forced to
true; all non-flag fields are recovered exactly. -/
theorem c1_roundtrip_flags_bug :
    RDPPacket.decode (RDPPacket.encode c1pkt) =
      .ok { c1pkt with syn := true, rst := true } ∧
    c1pkt.syn = false ∧ c1pkt.rst = false := by
  decide

/-! ### Claim C2 -/

/-- The failing input for claim C2: an odd (one-byte) payload. -/
def c2pkt : RDPPacket :=
  ⟨0, 0, 0, 0, [1], false, false, false, false, false⟩

/-- C2 (counterexample): on the one-byte payload `[1]`, the code's checksum
is 65533 (the odd byte contributes its own value 1), while the claimed
trailing-zero padding would make the byte contribute 256 and give 65278.
So `compute_checksum` is not the checksum the claim describes. -/
theorem c2_trailing_pad_counterexample :
    RDPPacket.compute_checksum c2pkt = 65533 ∧
    specChecksumTrailingPad c2pkt = 65278 ∧
    RDPPacket.compute_checksum c2pkt ≠ specChecksumTrailingPad c2pkt := by
  decide

theorem foldCarriesAux_of_lt (fuel c : Nat) (h : c < 65536) :
    foldCarriesAux fuel c = c := by
  cases fuel <;> simp [foldCarriesAux, h]

theorem foldCarriesAux_step (fuel c : Nat) (h : 65536 ≤ c) (hf : 1 ≤ fuel) :
    foldCarriesAux fuel c = foldCarriesAux (fuel - 1) (c / 65536 + c % 65536) := by
  obtain ⟨f, rfl⟩ : ∃ f, fuel = f + 1 := ⟨fuel - 1, by omega⟩
  simp [foldCarriesAux, show ¬c < 65536 by omega]

/-- One more folding round terminates for accumulators up to `131070` (the
largest value a first fold of a sum below `2^32` can produce). -/
theorem foldCarries_below (fuel c1 : Nat) (h : c1 ≤ 131070) (hf : 1 ≤ fuel) :
    foldCarriesAux fuel c1 = (c1 / 65536 + c1) % 65536 := by
  rcases Nat.lt_or_ge c1 65536 with h2 | h2
  · rw [foldCarriesAux_of_lt _ _ h2]
    have h0 : c1 / 65536 = 0 := by omega
    rw [h0]
    omega
  · have hd1 : c1 / 65536 = 1 := by omega
    rw [foldCarriesAux_step _ _ h2 hf, hd1, foldCarriesAux_of_lt _ _ (by omega)]
    omega

/-- The code's two fixed carry-folding lines followed by the low-16-bit mask
agree with folding repeatedly until no carry remains, for any word sum below
`2^32`. -/
theorem code_fold_eq_foldCarries (s : Nat) (hs : s < 4294967296) :
    ((s / 65536 + s % 65536) / 65536 + (s / 65536 + s % 65536)) % 65536 =
      foldCarries s := by
  rcases Nat.lt_or_ge s 65536 with h1 | h1
  · have h0 : s / 65536 = 0 := by omega
    have hm : s % 65536 = s := by omega
    rw [foldCarries, foldCarriesAux_of_lt s s h1, h0, hm, Nat.zero_add, h0,
      Nat.zero_add]
    exact hm
  · have hb : s / 65536 + s % 65536 ≤ 131070 := by omega
    rw [foldCarries, foldCarriesAux_step s s h1 (by omega),
      foldCarries_below _ _ hb (by omega)]

/-- Summing the 14 header bytes in 16-bit words equals the field-level word
sum of the spec, for in-range fields. -/
theorem sumWords_header_data (p : RDPPacket) (h : ValidPacket p) :
    sumWords (header_data p) = headerWordSum p := by
  obtain ⟨h1, h2, h3, h4, h5, _⟩ := h
  simp only [header_data, be16, be32, List.cons_append, List.nil_append,
    sumWords, headerWordSum]
  omega

/-- A word sum of bytes is bounded by `32768` per byte. -/
theorem sumWords_le (l : List Nat) (h : ∀ b ∈ l, b < 256) :
    sumWords l ≤ 32768 * l.length := by
  induction l using sumWords.induct with
  | case1 => simp [sumWords]
  | case2 b =>
    have := h b (by simp)
    simp [sumWords]
    omega
  | case3 b1 b2 rest ih =>
    have hb1 := h b1 (by simp)
    have hb2 := h b2 (by simp)
    have := ih (fun b hb => h b (by simp [hb]))
    simp [sumWords]
    omega

/-- C2 (amended): for every valid packet, `compute_checksum` is the
one's-complement 16-bit checksum of the header fields and the payload read
as big-endian 16-bit words, with a trailing odd payload byte contributing
its own value (leading-zero padding), carries folded back until none
remain, and the low 16 bits complemented. -/
theorem c2_checksum_amended (p : RDPPacket) (h : ValidPacket p) :
    RDPPacket.compute_checksum p = specChecksumLeadingPad p := by
  have hhead := sumWords_header_data p h
  have hdata : sumWords p.data ≤ 32768 * p.data.length :=
    sumWords_le p.data h.2.2.2.2.2
  have hlen : p.data.length < 65536 := h.2.2.2.2.1
  have hsum : sumWords (header_data p) + sumWords p.data < 4294967296 := by
    have : headerWordSum p ≤ 65535 * 3 + 2 * 65535 * 2 := by
      obtain ⟨h1, h2, h3, h4, _, _⟩ := h
      unfold headerWordSum
      omega
    omega
  simp only [RDPPacket.compute_checksum, specChecksumLeadingPad]
  rw [hhead] at hsum ⊢
  rw [code_fold_eq_foldCarries _ hsum]

/-- A concrete valid packet with an odd payload for the C2 witness. -/
def c2wpkt : RDPPacket :=
  ⟨80, 8080, 70000, 5, [10, 20, 30], true, false, false, false, true⟩

/-- Witness for `c2_checksum_amended` at the concrete packet `c2wpkt`. -/
theorem c2_checksum_amended_witness :
    RDPPacket.compute_checksum c2wpkt = specChecksumLeadingPad c2wpkt :=
  c2_checksum_amended c2wpkt (by decide)

/-! ### Claim C3 -/

/-- A 22-byte buffer whose declared `data_length` field is 5 although zero
payload bytes follow the header. -/
def c3bytes : List Nat :=
  [31, 9, 0, 1, 0, 2, 0, 0, 0, 5, 0, 0, 0, 0, 0, 0, 0, 0, 0, 0, 0, 0]

/-- C3 (counterexample): the claim says decoding fails when the declared
`data_length` does not equal the number of trailing bytes, but on `c3bytes`
(declared length 5, zero trailing bytes) `decode` succeeds: the field is
unpacked and then ignored. -/
theorem c3_length_mismatch_counterexample :
    c3bytes.length = 22 ∧ declaredDataLength c3bytes = 5 ∧
    (c3bytes.drop 22).length = 0 ∧
    RDPPacket.decode c3bytes =
      .ok ⟨1, 2, 0, 0, [], true, false, false, true, false⟩ := by
  decide

/-- C3 (amended): `decode` fails (with `struct.error`) exactly when fewer
than 22 bytes — the fixed header size the decoder consumes — are present; it
never validates the declared `data_length` against the trailing byte count
and never checks the checksum, and on every input of at least 22 bytes it
returns a packet. -/
theorem c3_decode_amended (bs : List Nat) :
    ((∃ p, RDPPacket.decode bs = .ok p) ↔ 22 ≤ bs.length) ∧
    (bs.length < 22 → RDPPacket.decode bs = .error .structError) := by
  constructor
  · by_cases h : bs.length < 22
    · simp only [RDPPacket.decode, if_pos h]
      constructor
      · rintro ⟨p, hp⟩
        exact absurd hp (by simp)
      · omega
    · simp only [RDPPacket.decode, if_neg h]
      constructor
      · intro
        omega
      · intro
        exact ⟨_, rfl⟩
  · intro h
    simp only [RDPPacket.decode, if_pos h]

/-! ### Claim C4 -/

/-- C4 (confirmed): `send` fails with the not-open error unless the state is
OPEN, then with the segment-size error when the payload exceeds `SND_MAX`,
then with the window-full error when `SND_NXT ≥ SND_UNA + SND_MAX`; otherwise
it emits exactly the packet built by `prepare_data_packet` (seq `SND_NXT`,
ack `RCV_CUR`, no control flags, the given payload) and advances `SND_NXT`
by the payload length. -/
theorem c4_send_spec (c : Conn) (data : List Nat) :
    (c.state ≠ .OPEN → send c data = .error .notOpen) ∧
    (c.state = .OPEN → c.SND_MAX < data.length →
      send c data = .error .segmentTooLarge) ∧
    (c.state = .OPEN → data.length ≤ c.SND_MAX →
      c.SND_UNA + c.SND_MAX ≤ c.SND_NXT → send c data = .error .windowFull) ∧
    (c.state = .OPEN → data.length ≤ c.SND_MAX →
      c.SND_NXT < c.SND_UNA + c.SND_MAX →
      send c data = .ok ({ c with SND_NXT := c.SND_NXT + data.length },
        prepare_data_packet c data)) := by
  refine ⟨fun h => ?_, fun h1 h2 => ?_, fun h1 h2 h3 => ?_, fun h1 h2 h3 => ?_⟩
  · simp [send, h]
  · simp [send, h1, h2]
  · simp only [send, h1]
    rw [if_neg (by simp), if_neg (by omega), if_pos (by omega)]
  · simp only [send, h1]
    rw [if_neg (by simp), if_neg (by omega), if_neg (by omega)]

/-- A concrete OPEN connection for the C4 witness. -/
def c4conn : Conn :=
  { state := .OPEN, SND_ISS := 100, SND_NXT := 101, SND_UNA := 100,
    RCV_CUR := 7, RCV_MAX := 0, SND_MAX := 10, RMAX_BUF := 1024,
    data_buffer := [], source_port := 5, dest_port := 6, remote_address := 9 }

/-- Witness for `c4_send_spec`: the success branch on a 3-byte payload. -/
theorem c4_send_spec_witness :
    send c4conn [1, 2, 3] =
      .ok ({ c4conn with SND_NXT := 104 }, prepare_data_packet c4conn [1, 2, 3]) :=
  (c4_send_spec c4conn [1, 2, 3]).2.2.2 rfl (by decide) (by decide)

/-! ### Claim C5 -/

/-- A concrete OPEN connection with non-zero counters and a non-empty
reassembly buffer. -/
def c5conn : Conn :=
  { state := .OPEN, SND_ISS := 50, SND_NXT := 55, SND_UNA := 52,
    RCV_CUR := 7, RCV_MAX := 8, SND_MAX := 10, RMAX_BUF := 1024,
    data_buffer := [9], source_port := 1, dest_port := 2, remote_address := 3 }

/-- A concrete inbound RST packet with empty payload. -/
def c5rst : RDPPacket :=
  ⟨2, 1, 99, 98, [], false, false, false, true, false⟩

/-- C5 (code bug): `handle_rst_packet` implements exactly the claimed
transition (CLOSED, all five sequence counters zeroed, buffer emptied), but
`process_packet` never reaches it: its first statement calls the static
method `decode` on the packet instance with no argument and raises
`TypeError` on every input, so an inbound RST in OPEN does not transition
the connection. -/
theorem c5_open_rst_crash :
    process_packet c5conn c5rst = .error .typeError ∧
    handle_rst_packet c5conn c5rst =
      { c5conn with state := .CLOSED, SND_ISS := 0, SND_NXT := 0, SND_UNA := 0,
                    RCV_CUR := 0, RCV_MAX := 0, data_buffer := [] } := by
  decide

/-! ### Claim C6 -/

/-- C6 (confirmed): `close` in CLOSED or CLOSE-WAIT returns the
not-open-or-closing error and leaves the connection unchanged, emitting
nothing; in OPEN it emits exactly one RST packet and moves to CLOSE-WAIT; in
LISTEN, SYN-RCVD or SYN-SENT it emits exactly one RST packet and moves to
CLOSED. The emitted packet has only its RST flag set. -/
theorem c6_close_spec (c : Conn) :
    ((c.state = .CLOSED ∨ c.state = .CLOSE_WAIT) →
      close c = (c, [], .errNotOpenOrClosing)) ∧
    (c.state = .OPEN →
      close c = ({ c with state := .CLOSE_WAIT }, [rst_packet c], .closeWait)) ∧
    ((c.state = .LISTEN ∨ c.state = .SYN_RCVD ∨ c.state = .SYN_SENT) →
      close c = ({ c with state := .CLOSED }, [rst_packet c], .closedFromHandshake)) ∧
    (rst_packet c).rst = true ∧ (rst_packet c).syn = false ∧
    (rst_packet c).ack = false ∧ (rst_packet c).eack = false ∧
    (rst_packet c).nul = false := by
  rcases hc : c.state <;> simp [close, rst_packet, hc]

/-- A concrete OPEN connection for the C6 witness. -/
def c6conn : Conn :=
  { state := .OPEN, SND_ISS := 10, SND_NXT := 12, SND_UNA := 10,
    RCV_CUR := 4, RCV_MAX := 0, SND_MAX := 10, RMAX_BUF := 1024,
    data_buffer := [], source_port := 3, dest_port := 4, remote_address := 7 }

/-- Witness for `c6_close_spec`: closing the concrete OPEN connection. -/
theorem c6_close_spec_witness :
    close c6conn = ({ c6conn with state := .CLOSE_WAIT },
      [rst_packet c6conn], .closeWait) :=
  (c6_close_spec c6conn).2.1 rfl

/-! ### Claim C7 -/

/-- A concrete LISTEN connection. -/
def c7conn : Conn :=
  { state := .LISTEN, SND_ISS := 20, SND_NXT := 21, SND_UNA := 20,
    RCV_CUR := 0, RCV_MAX := 0, SND_MAX := 10, RMAX_BUF := 1024,
    data_buffer := [], source_port := 1, dest_port := 2, remote_address := 3 }

/-- An unflagged data packet, an event not listed for LISTEN. -/
def c7data : RDPPacket :=
  ⟨2, 1, 5, 0, [1, 2, 3], false, false, false, false, false⟩

/-- C7 (code bug): the dispatch structure of `process_packet` does ignore an
event not listed for the current state (here an unflagged data packet in
LISTEN: no state change, nothing emitted), but the actual `process_packet`
call raises `TypeError` on every packet — the unlisted event is not ignored,
the call crashes before dispatch. -/
theorem c7_unlisted_event :
    process_packet c7conn c7data = .error .typeError ∧
    process_packet_dispatch c7conn c7data = (c7conn, []) := by
  decide

/-! ### Claim C8 -/

/-- A concrete OPEN connection whose peer has address 3. -/
def c8conn : Conn :=
  { state := .OPEN, SND_ISS := 30, SND_NXT := 31, SND_UNA := 30,
    RCV_CUR := 0, RCV_MAX := 0, SND_MAX := 10, RMAX_BUF := 1024,
    data_buffer := [], source_port := 1, dest_port := 2, remote_address := 3 }

/-- C8 (counterexample): a one-byte datagram from the configured peer cannot
be decoded, and `receive` does not behave as if no packet were available — the
`struct.error` raised inside `RDPPacket.decode` propagates to the caller
(there is no exception handler on the receive path). -/
theorem c8_malformed_datagram_counterexample :
    receive c8conn ([0], 3) = .error .structError ∧
    receive c8conn ([0], 3) ≠ .ok (c8conn, .noData) := by
  decide

/-- C8 (amended): only a datagram from an address other than the recorded
peer is dropped silently (treated as no data this tick); a datagram from the
peer that cannot be decoded makes `receive` fail with the propagated
`struct.error`. Checksum verification does not exist on the receive path, so
a checksum-failing datagram is never even detected, let alone dropped. -/
theorem c8_receive_amended (c : Conn) (bs : List Nat) (a : Nat)
    (hopen : c.state = .OPEN) :
    (a ≠ c.remote_address → receive c (bs, a) = .ok (c, .noData)) ∧
    (a = c.remote_address → bs.length < 22 →
      receive c (bs, a) = .error .structError) := by
  constructor
  · intro ha
    simp [receive, receive_packet, hopen, ha]
  · intro ha hlen
    simp [receive, receive_packet, RDPPacket.decode, hopen, ha, hlen]

/-- A concrete OPEN connection whose peer has address 8, for the C8 witness. -/
def c8wconn : Conn :=
  { state := .OPEN, SND_ISS := 40, SND_NXT := 41, SND_UNA := 40,
    RCV_CUR := 0, RCV_MAX := 0, SND_MAX := 10, RMAX_BUF := 1024,
    data_buffer := [], source_port := 1, dest_port := 2, remote_address := 8 }

/-- Witness for `c8_receive_amended`: a datagram from a wrong source address
is silently treated as no data. -/
theorem c8_receive_amended_witness :
    receive c8wconn ([5], 99) = .ok (c8wconn, .noData) :=
  (c8_receive_amended c8wconn [5] 99 rfl).1 (by decide)

/-! ### Claim C9 -/

/-- The send-side invariant of the claim: `SND_UNA ≤ SND_NXT`. -/
def SndInv (c : Conn) : Prop :=
  c.SND_UNA ≤ c.SND_NXT

/-- C9 (confirmed): a successful `open` establishes `SND_UNA ≤ SND_NXT`
(it sets `SND_NXT = SND_ISS + 1`, `SND_UNA = SND_ISS`), and every operation
of the connection preserves it: `send` (which only increases `SND_NXT`),
the inbound-packet dispatch and the actual `process_packet` (whose handlers
never touch the send counters except through `reset_connection`), `receive`,
`close` (which changes only the state), and `reset_connection` (which zeroes
both counters). -/
theorem c9_snd_una_le_snd_nxt :
    (∀ c passive lp rp sm rb iss c1 pkts,
      open_connection c passive lp rp sm rb iss = (c1, pkts, .opened) →
      SndInv c1) ∧
    (∀ c data c1 pkt, SndInv c → send c data = .ok (c1, pkt) → SndInv c1) ∧
    (∀ c p, SndInv c → SndInv (process_packet_dispatch c p).1) ∧
    (∀ c p r, SndInv c → process_packet c p = .ok r → SndInv r.1) ∧
    (∀ c d c1 res, SndInv c → receive c (d : List Nat × Nat) = .ok (c1, res) →
      SndInv c1) ∧
    (∀ c, SndInv c → SndInv (close c).1) ∧
    (∀ c, SndInv (reset_connection c)) := by
  refine ⟨?_, ?_, ?_, ?_, ?_, ?_, ?_⟩
  · intro c passive lp rp sm rb iss c1 pkts h
    unfold open_connection at h
    split at h
    · simp at h
    · split at h
      · rcases lp with _ | lp
        · simp at h
        · simp only [Prod.mk.injEq] at h
          obtain ⟨hc, -, -⟩ := h
          subst hc
          unfold SndInv
          simp
      · rcases rp with _ | rp
        · simp at h
        · simp only [Prod.mk.injEq] at h
          obtain ⟨hc, -, -⟩ := h
          subst hc
          unfold SndInv
          rcases lp with _ | lp <;> simp
  · intro c data c1 pkt h1 h2
    unfold send at h2
    split at h2
    · simp at h2
    · split at h2
      · simp at h2
      · split at h2
        · simp at h2
        · simp only [Except.ok.injEq, Prod.mk.injEq] at h2
          obtain ⟨hc, -⟩ := h2
          subst hc
          unfold SndInv at h1 ⊢
          simp
          omega
  · intro c p h
    obtain ⟨st, a1, a2, a3, a4, a5, a6, a7, a8, a9, a10, a11⟩ := c
    unfold SndInv at h ⊢
    cases st <;>
      simp only [process_packet_dispatch, handle_syn_packet,
        handle_syn_ack_packet, handle_ack_packet, handle_data_packet,
        handle_rst_packet, reset_connection] <;>
      (try split_ifs) <;> simp_all
  · intro c p r h1 h2
    simp [process_packet, instance_decode_call] at h2
  · intro c d c1 res h1 h2
    unfold receive at h2
    split at h2
    · simp only [Except.ok.injEq, Prod.mk.injEq] at h2
      obtain ⟨hc, -⟩ := h2
      subst hc
      exact h1
    · split at h2
      · simp at h2
      · simp only [Except.ok.injEq, Prod.mk.injEq] at h2
        obtain ⟨hc, -⟩ := h2
        subst hc
        exact h1
      · simp [process_packet, instance_decode_call] at h2
  · intro c h
    rcases hc : c.state <;> simp only [close, hc] <;> exact h
  · intro c
    unfold SndInv reset_connection
    simp

/-- A concrete OPEN connection for the C9 witness. -/
def c9wconn : Conn :=
  { state := .OPEN, SND_ISS := 200, SND_NXT := 201, SND_UNA := 200,
    RCV_CUR := 0, RCV_MAX := 0, SND_MAX := 10, RMAX_BUF := 1024,
    data_buffer := [], source_port := 1, dest_port := 2, remote_address := 3 }

/-- Witness for `c9_snd_una_le_snd_nxt`: the invariant after a concrete
successful `send`. -/
theorem c9_snd_una_le_snd_nxt_witness :
    SndInv { c9wconn with SND_NXT := 202 } :=
  c9_snd_una_le_snd_nxt.2.1 c9wconn [42] { c9wconn with SND_NXT := 202 }
    (prepare_data_packet c9wconn [42]) (by unfold SndInv; decide) (by decide)

/-! ### Claim C10 -/

/-- C10 (confirmed): when `open` is called in CLOSED but the required port is
missing (passive with no local port, active with no remote port), the
returned error comes only after the counters were already mutated: the
resulting connection has `SND_ISS = iss`, `SND_NXT = iss + 1`,
`SND_UNA = iss`, and the given `SND_MAX`/`RMAX_BUF` recorded, while the state
is still CLOSED and nothing was transmitted. -/
theorem c10_open_not_atomic (c : Conn) (iss sm rb : Nat) (lp rp : Option Nat)
    (h : c.state = .CLOSED) :
    open_connection c true none rp (some sm) (some rb) iss =
      ({ c with SND_ISS := iss, SND_NXT := iss + 1, SND_UNA := iss,
                SND_MAX := sm, RMAX_BUF := rb }, [], .missingLocalPort) ∧
    open_connection c false lp none (some sm) (some rb) iss =
      ({ c with SND_ISS := iss, SND_NXT := iss + 1, SND_UNA := iss,
                SND_MAX := sm, RMAX_BUF := rb }, [], .missingRemotePort) := by
  constructor <;> simp [open_connection, h]

/-- The connection state expected after the failed passive open in the C10
witness: still CLOSED, but with the drawn counters recorded. -/
def c10after : Conn :=
  { state := .CLOSED, SND_ISS := 500, SND_NXT := 501, SND_UNA := 500,
    RCV_CUR := 0, RCV_MAX := 0, SND_MAX := 9, RMAX_BUF := 99,
    data_buffer := [], source_port := 1, dest_port := 2, remote_address := 3 }

/-- Witness for `c10_open_not_atomic`: a failed passive open on a fresh
connection still records the drawn sequence numbers. -/
theorem c10_open_not_atomic_witness :
    open_connection (Conn.init 1 2 3) true none none (some 9) (some 99) 500 =
      (c10after, [], .missingLocalPort) :=
  (c10_open_not_atomic (Conn.init 1 2 3) 500 9 99 none none rfl).1

end RDP
